import Mathlib

/-!
Verification of the QueryJDM query engine (src/utils/parseQuery.ts,
src/utils/evaluateQuery.ts, src/app/api/process-query/route.ts).

Shallow-embedding conventions:
* JavaScript strings are Lean `String`s; most character-level operations
  (split, substring test, replace-first) are re-implemented structurally on
  `List Char` so that all definitions evaluate by kernel reduction.
* JS `Map`/`Set` are modelled by association lists / duplicate-free lists
  that preserve insertion order, with `set`-overwrite semantics.
* The external graph-lookup service (`fetch` inside `handleAPICall`) is a
  parameter `api : String → ApiResult` keyed by the fully-qualified request
  URL, exactly as the in-process cache keys it.  With a deterministic stub
  the response cache of the source is observationally the identity, so it is
  not modelled.  Network failure is a stub returning `⟨[], []⟩`.
* JS `RegExp.test` is abstracted by a parameter `rx : String → String → Bool`
  (pattern body after stripping the `/` delimiters, then candidate string).
* The relation catalog (`relations_dict.json`, data not part of the sources)
  is a parameter `catalog : List RelationEntry`.
* `throw new Error(msg)` is `Except.error msg`.
* Bounded loops whose JS form is recursion with a non-structural measure are
  written with an explicit fuel argument; the initial fuel is always a proven
  upper bound on the number of iterations the JS code can perform, so the
  out-of-fuel branch is unreachable on every input considered here.
-/

namespace QueryJDM

/-! ## Character-level string helpers (JS semantics) -/

/-- Test whether `pat` is a prefix of `s` (JS `String.prototype.startsWith`). -/
def leadsWith : List Char → List Char → Bool
  | _, [] => true
  | [], _ :: _ => false
  | c :: cs, p :: ps => c == p && leadsWith cs ps

/-- Test whether `pat` occurs contiguously inside `s` (JS `String.prototype.includes`). -/
def containsSubSeq : List Char → List Char → Bool
  | [], pat => pat.isEmpty
  | c :: rest, pat => leadsWith (c :: rest) pat || containsSubSeq rest pat

/-- Substring test on strings (JS `includes`). -/
def containsSub (s pat : String) : Bool := containsSubSeq s.data pat.data

/-- Split on a non-empty separator, fuelled so the definition is structural;
`fuel` must be at least the length of the list (which every call site
guarantees), making the fuel-exhaustion branch unreachable.
JS `String.prototype.split` with a plain-string separator. -/
def splitOnFuel (sep : List Char) : Nat → List Char → List (List Char)
  | _, [] => [[]]
  | 0, l => [l]
  | fuel + 1, c :: rest =>
    if sep ≠ [] ∧ leadsWith (c :: rest) sep then
      [] :: splitOnFuel sep fuel ((c :: rest).drop sep.length)
    else
      match splitOnFuel sep fuel rest with
      | [] => [[c]]
      | h :: t => (c :: h) :: t

/-- String-level split (JS `s.split(sep)` for a non-empty plain separator). -/
def splitOnStr (s sep : String) : List String :=
  (splitOnFuel sep.data s.data.length s.data).map String.mk

/-- Remove the first occurrence of `'!'` (JS `s.replace("!", "")`). -/
def removeBangSeq : List Char → List Char
  | [] => []
  | c :: rest => if c == '!' then rest else c :: removeBangSeq rest

/-- String form of `removeBangSeq`. -/
def removeBang (s : String) : String := String.mk (removeBangSeq s.data)

/-- Comparator characters of the weight-parameter syntax. -/
def cmpChar (c : Char) : Bool := c == '<' || c == '>' || c == '='

/-- Remove the first character matching `[<>=]`
(JS `s.replace(/[<>=]/, "")` — note: no global flag, first match only). -/
def replaceFirstCmp : List Char → List Char
  | [] => []
  | c :: rest => if cmpChar c then rest else c :: replaceFirstCmp rest

/-- Remove every decimal digit (JS `s.replaceAll(/[0-9]/g, "")`). -/
def stripDigits (s : String) : String :=
  String.mk (s.data.filter (fun c => !c.isDigit))

/-- Remove every `'/'` (JS `s.replaceAll("/", "")`, used on grep tokens). -/
def removeSlashes (s : String) : String :=
  String.mk (s.data.filter (fun c => c != '/'))

/-- Join with commas (JS `Array.prototype.join(",")`). -/
def joinComma : List String → String
  | [] => ""
  | [s] => s
  | s :: rest => s ++ "," ++ joinComma rest

/-! ## Insertion-ordered sets and maps (JS `Set` / `Map`) -/

/-- Add an element to an insertion-ordered set (JS `Set.prototype.add`). -/
def insertNew (l : List String) (x : String) : List String :=
  if l.contains x then l else l ++ [x]

/-- Deduplicate keeping the first occurrence (JS `[...new Set(l)]`). -/
def dedupFirst (l : List String) : List String := l.foldl insertNew []

/-- Overwrite-or-append on an association list, keeping the original position
of an existing key (JS `Map.prototype.set`). -/
def assocSet {α : Type} (l : List (String × α)) (k : String) (v : α) : List (String × α) :=
  if l.any (fun p => p.1 == k) then
    l.map (fun p => if p.1 == k then (k, v) else p)
  else l ++ [(k, v)]

/-- Lookup on an association list (JS `Map.prototype.get`). -/
def assocGet {α : Type} (l : List (String × α)) (k : String) : Option α :=
  (l.find? (fun p => p.1 == k)).map (fun p => p.2)

/-! ## Data model (src/utils/parseQuery.ts) -/

/-- Token kinds of the lexer (`TokenType` in parseQuery.ts). -/
inductive TokType
  | VARIABLE | RELATION | ENTITY | AND | OR | WEIGHT_PARAM | EOF | GREP
deriving DecidableEq, Repr

/-- Lexer token: kind, text and source position (`Token` in parseQuery.ts). -/
structure Token where
  type : TokType
  value : String
  position : Nat
deriving DecidableEq, Repr

/-- AST leaf (`SimpleQuery` in parseQuery.ts). -/
structure SimpleQueryAst where
  subject : Token
  relation : Token
  object : Token
  weightParam : Option Token
  grep : Option Token
  negated : Bool
deriving DecidableEq, Repr

/-- Compound operator (the `"AND" | "OR"` union type of `CompoundQuery`). -/
inductive Op
  | AND | OR
deriving DecidableEq, Repr

/-- AST (`ASTNode = SimpleQuery | CompoundQuery` in parseQuery.ts). -/
inductive ASTNode
  | simple (q : SimpleQueryAst)
  | compound (left : ASTNode) (op : Op) (right : ASTNode)
deriving DecidableEq, Repr

/-- One variable binding (`{ name: string; value: string[] }`). -/
structure VarBinding where
  name : String
  value : List String
deriving DecidableEq, Repr

/-- `VariableContents` of parseQuery.ts. -/
abbrev VariableContents := List VarBinding

/-- Result of one evaluation pass (`{ result, variables }` of evaluateQuery);
the `variables` field is spelt `vars` because `variables` is reserved in
Lean 4. -/
structure EvalResult where
  result : List String
  vars : VariableContents
deriving DecidableEq, Repr

/-! ## Lexer (createLexer in parseQuery.ts) -/

/-- ASCII whitespace, the fragment of the JS `\s` class exercised by the
queries of this development (the JS class additionally holds some Unicode
space characters; no claim involves them). -/
def isWsChar (c : Char) : Bool :=
  c == ' ' || c == Char.ofNat 9 || c == Char.ofNat 10 || c == Char.ofNat 13 ||
  c == Char.ofNat 11 || c == Char.ofNat 12

/-- ASCII letter (JS `/[a-zA-Z]/`). -/
def isAsciiLetter (c : Char) : Bool :=
  ('a' ≤ c && c ≤ 'z') || ('A' ≤ c && c ≤ 'Z')

/-- The extended identifier alphabet of `readIdentifier`
(JS `/[a-zA-Z0-9_$<>.=*?+^|[\](){}/\-!:;,@#%&"'~`é...Ç]/`). -/
def identChar (c : Char) : Bool :=
  isAsciiLetter c || c.isDigit ||
  [('_' : Char), '$', '<', '>', '.', '=', '*', '?', '+', '^', '|', '[', ']',
   '(', ')', Char.ofNat 123, Char.ofNat 125, '/', '-', '!', ':', ';',
   Char.ofNat 44, '@', '#', '%', '&', Char.ofNat 34, Char.ofNat 39, '~',
   Char.ofNat 96].contains c ||
  [('é' : Char), 'è', 'ê', 'ë', 'à', 'â', 'ä', 'î', 'ï', 'ô', 'ö', 'ù', 'û',
   'ü', 'ç', 'É', 'È', 'Ê', 'Ë', 'À', 'Â', 'Ä', 'Î', 'Ï', 'Ô', 'Ö', 'Ù', 'Û',
   'Ü', 'Ç'].contains c

/-- Longest identifier-alphabet run at the head (readIdentifier's loop). -/
def readIdentChars : List Char → List Char × List Char
  | [] => ([], [])
  | c :: rest =>
    if identChar c then
      match readIdentChars rest with
      | (s, r) => (c :: s, r)
    else ([], c :: rest)

/-- `readIdentifier` of createLexer: the consumed text and the remaining input. -/
def readIdent (l : List Char) : String × List Char :=
  match readIdentChars l with
  | (s, r) => (String.mk s, r)

/-- `getNextToken` of createLexer.  Input is the remaining character list
together with the absolute position of its head; returns the token, the
remaining characters and the new position.  Whitespace skipping is the
structural recursion; all look-aheads read the same list. -/
def getNextToken : List Char → Nat → Except String (Token × List Char × Nat)
  | [], pos => .ok (⟨.EOF, "", pos⟩, [], pos)
  | c :: rest, pos =>
    if isWsChar c then getNextToken rest (pos + 1)
    else if c == '$' then
      match readIdent (c :: rest) with
      | (id, rest') => .ok (⟨.VARIABLE, id, pos⟩, rest', pos + id.length)
    else if c == 'r' && rest.head? == some '_' then
      match readIdent (c :: rest) with
      | (id, rest') => .ok (⟨.RELATION, id, pos⟩, rest', pos + id.length)
    else if c == '!' && rest.take 2 == ['r', '_'] then
      match readIdent (c :: rest) with
      | (id, rest') => .ok (⟨.RELATION, id, pos⟩, rest', pos + id.length)
    else if c == '<' || c == '>' || c == '=' then
      match readIdent (c :: rest) with
      | (id, rest') => .ok (⟨.WEIGHT_PARAM, id, pos⟩, rest', pos + id.length)
    else if c == '/' then
      match readIdent (c :: rest) with
      | (id, rest') => .ok (⟨.GREP, id, pos⟩, rest', pos + id.length)
    else if c == 'A' && (c :: rest).take 3 == ['A', 'N', 'D'] then
      .ok (⟨.AND, "AND", pos⟩, rest.drop 2, pos + 3)
    else if c == 'O' && (c :: rest).take 2 == ['O', 'R'] then
      .ok (⟨.OR, "OR", pos⟩, rest.drop 1, pos + 2)
    else if isAsciiLetter c then
      match readIdent (c :: rest) with
      | (id, rest') => .ok (⟨.ENTITY, id, pos⟩, rest', pos + id.length)
    else
      .error ("Unexpected character: " ++ String.mk [c])

/-- Tokenize the whole input, appending the final EOF token.  Every non-EOF
token consumes at least one character, so fuel `s.length + 1` is an upper
bound on the number of `getNextToken` calls and the fuel-exhaustion branch is
unreachable. -/
def tokenizeAux : Nat → List Char → Nat → List Token → Except String (List Token)
  | 0, _, _, _ => .error "unreachable: tokenizer fuel exhausted"
  | fuel + 1, chars, pos, acc =>
    match getNextToken chars pos with
    | .error e => .error e
    | .ok (tok, rest, pos') =>
      if tok.type == .EOF then .ok (acc ++ [tok])
      else tokenizeAux fuel rest pos' (acc ++ [tok])

/-- Token sequence of a query string (the lexer consumed to exhaustion). -/
def tokenize (s : String) : Except String (List Token) :=
  tokenizeAux (s.data.length + 1) s.data 0 []

/-! ## Graph client model (src/utils/evaluateQuery.ts, lines 1–77) -/

/-- `LIMIT` of evaluateQuery.ts. -/
def LIMIT : Nat := 900

/-- `MIN_WEIGHT` of evaluateQuery.ts. -/
def MIN_WEIGHT : Nat := 30

/-- `MAX_WEIGHT` of evaluateQuery.ts. -/
def MAX_WEIGHT : Nat := 999999

/-- A graph node as returned by the lookup service (`Node` type). -/
structure Node where
  id : Int
  name : String
  type : Int
  w : Int
deriving DecidableEq, Repr

/-- A graph edge as returned by the lookup service (`Relation` type; named
`Edge` here to avoid clashing with the query's relation token). -/
structure Edge where
  id : Int
  node1 : Int
  node2 : Int
  type : Int
  w : Int
deriving DecidableEq, Repr

/-- Payload of one lookup (`{ nodes, relations }`). -/
structure ApiResult where
  nodes : List Node
  relations : List Edge
deriving DecidableEq, Repr

/-- The external lookup service, keyed by request URL exactly like the
response cache of `handleAPICall`.  `fetch`/decoding failures are modelled by
the stub answering `⟨[], []⟩`. -/
abbrev Api := String → ApiResult

/-- One catalog row of `relations_dict.json` (only the fields the evaluator
reads: `code` and `id`). -/
structure RelationEntry where
  id : Int
  code : String
deriving DecidableEq, Repr

/-- `relationsData.relations.find((v) => v.code === relation)?.id`. -/
def findRelId (catalog : List RelationEntry) (code : String) : Option Int :=
  (catalog.find? (fun v => v.code == code)).map (fun v => v.id)

/-- URL of `GET /v0/relations/from/{val}` as interpolated in the source. -/
def urlFrom (val : String) (relId : Int) (minW maxW : String) : String :=
  "https://jdm-api.demo.lirmm.fr/v0/relations/from/" ++ val ++ "?types_ids=" ++
    toString relId ++ "&min_weight=" ++ minW ++ "&max_weight=" ++ maxW ++
    "&limit=" ++ toString LIMIT ++ "&type=1"

/-- URL of `GET /v0/relations/to/{val}` as interpolated in the source. -/
def urlTo (val : String) (relId : Int) (minW maxW : String) : String :=
  "https://jdm-api.demo.lirmm.fr/v0/relations/to/" ++ val ++ "?types_ids=" ++
    toString relId ++ "&min_weight=" ++ minW ++ "&max_weight=" ++ maxW ++
    "&limit=" ++ toString LIMIT ++ "&type=1"

/-- URL of the bulk node fetch `GET /v0/nodes?type=1&limit=900`. -/
def urlNodes : String :=
  "https://jdm-api.demo.lirmm.fr/v0/nodes?type=1&limit=" ++ toString LIMIT

/-- Lookup in `new Map(nodes.map((node) => [node.id, node.name]))`;
`Map.set` overwrites, so the last pair for a key wins. -/
def nodeNameMap (nodes : List Node) (k : Int) : Option String :=
  ((nodes.map (fun n => (n.id, n.name))).reverse.find? (fun p => p.1 == k)).map
    (fun p => p.2)

/-- Optional regex filtering (`if (regex) { ... .filter((e) => regex.test(e)) }`). -/
def applyRegex (rx? : Option (String → Bool)) (l : List String) : List String :=
  match rx? with
  | some p => l.filter p
  | none => l

/-- `getRelatedEntities` of evaluateQuery.ts: one `from/{val}` lookup, edges
filtered to the requested relation type, targets resolved through the node
map, then the optional regex filter. -/
def getRelatedEntities (api : Api) (rx? : Option (String → Bool)) (val : String)
    (relId : Int) (minW maxW : String) : List String :=
  let data := api (urlFrom val relId minW maxW)
  let related := (data.relations.filter (fun rel => rel.type == relId)).filterMap
    (fun rel => nodeNameMap data.nodes rel.node2)
  applyRegex rx? related

/-- The `to/{val}` lookups of the variable-to-variable cases (lines 267–273
and 350–356): nodes of type 1, mapped to their names, no regex filter. -/
def fetchToNames (api : Api) (val : String) (relId : Int) (minW maxW : String) :
    List String :=
  ((api (urlTo val relId minW maxW)).nodes.filter (fun n => n.type == 1)).map
    (fun n => n.name)

/-! ## Weight-band derivation (evaluateSimpleQuery, lines 126–130) -/

/-- The min/max weight pair exactly as the source computes it (and as it is
rendered into the request URL).  `replace(/[<>=]/, "")` has no global flag,
so only the first comparator character is removed. -/
def parseWeights (wp : Option String) : String × String :=
  match wp with
  | none => (toString MIN_WEIGHT, toString MAX_WEIGHT)
  | some v =>
    let minW := if containsSub v ">=" then String.mk (replaceFirstCmp v.data)
                else toString MIN_WEIGHT
    let maxW := if containsSub v "<=" then String.mk (replaceFirstCmp v.data)
                else toString MAX_WEIGHT
    if stripDigits v == "=" then
      (String.mk (replaceFirstCmp v.data), String.mk (replaceFirstCmp v.data))
    else (minW, maxW)

/-! ## Clause resolver (evaluateSimpleQuery, lines 119–408) -/

/-- `processVariableToVariableRelation`: concurrent `from/{left}` lookups,
then the pairs whose right member is already bound on the right variable. -/
def processVariableToVariableRelation (api : Api) (rx? : Option (String → Bool))
    (leftVarName : String) (leftVarValues : List String) (rightVarName : String)
    (rightVarValues : List String) (relId : Int) (minW maxW : String) :
    VariableContents :=
  let resultVarName := leftVarName ++ "_" ++ rightVarName ++ "_pairs"
  let validPairs := leftVarValues.flatMap (fun leftValue =>
    (getRelatedEntities api rx? leftValue relId minW maxW).filterMap
      (fun rightValue =>
        if rightVarValues.contains rightValue then
          some (leftValue ++ "," ++ rightValue)
        else none))
  [⟨resultVarName, validPairs⟩]

/-- The both-variables-unbound exhaustive scan (lines 292–320 and 367–398,
two textually identical blocks): bulk node fetch, one `from/{node}` lookup
per distinct node name, edges of the requested type resolved through the bulk
node map, pairs kept when the regex (if any) accepts both members. -/
def allPairsScan (api : Api) (rx? : Option (String → Bool)) (relId : Int)
    (minW maxW : String) : List String :=
  let nodesData := api urlNodes
  let names := dedupFirst (nodesData.nodes.map (fun n => n.name))
  names.flatMap (fun nodeName =>
    ((api (urlFrom nodeName relId minW maxW)).relations).filterMap (fun rel =>
      if rel.type == relId then
        match nodeNameMap nodesData.nodes rel.node2 with
        | some rightName =>
          if (match rx? with
              | none => true
              | some p => p nodeName && p rightName) then
            some (nodeName ++ "," ++ rightName)
          else none
        | none => none
      else none))

/-- `evaluateSimpleQuery`: weight band and regex derivation, catalog lookup
(hard failure on an unknown code), then dispatch on the
(subject-kind, object-kind) pair; the final catch-all is the
`Invalid API URL ... or case not implemented` throw (with `apiUrl` still the
empty string there, hence the double space). -/
def evaluateSimpleQuery (api : Api) (rx : String → String → Bool)
    (catalog : List RelationEntry) (query : SimpleQueryAst)
    (existingVariables : VariableContents) : Except String VariableContents :=
  let subject := query.subject.value
  let object := query.object.value
  let relation := removeBang query.relation.value
  let wpair := parseWeights (query.weightParam.map (fun t => t.value))
  let minWeight := wpair.1
  let maxWeight := wpair.2
  let regex : Option (String → Bool) :=
    query.grep.map (fun g => rx (removeSlashes g.value))
  match findRelId catalog relation with
  | none => .error ("Relation \"" ++ relation ++ "\" not recognized")
  | some relationId =>
    if query.subject.type == .VARIABLE && query.object.type == .ENTITY then
      -- case 1: $x r_relation word
      let data := api (urlTo object relationId minWeight maxWeight)
      let names := (data.nodes.filter (fun n => n.type == 1)).map (fun n => n.name)
      if query.negated then
        let allValues :=
          ((existingVariables.find? (fun v => v.name == subject)).map
            (fun v => v.value)).getD []
        let newValues := allValues.filter (fun value => !names.contains value)
        .ok [⟨query.subject.value, applyRegex regex newValues⟩]
      else
        .ok [⟨query.subject.value, applyRegex regex names⟩]
    else if query.subject.type == .ENTITY && query.object.type == .VARIABLE then
      -- case 2: word r_relation $x
      let data := api (urlFrom subject relationId minWeight maxWeight)
      let names := (data.nodes.filter (fun n => n.type == 1)).map (fun n => n.name)
      if query.negated then
        let allValues :=
          ((existingVariables.find? (fun v => v.name == object)).map
            (fun v => v.value)).getD []
        let newValues := allValues.filter (fun value => !names.contains value)
        .ok [⟨query.object.value, applyRegex regex newValues⟩]
      else
        .ok [⟨query.object.value, applyRegex regex names⟩]
    else if query.subject.type == .VARIABLE && query.object.type == .VARIABLE then
      -- case 3: $x r_relation $y
      let leftVar? := existingVariables.find? (fun v => v.name == subject)
      let rightVar? := existingVariables.find? (fun v => v.name == object)
      if query.negated then
        let resultVarName := ((leftVar?.map (fun v => v.name)).getD subject) ++
          "_" ++ ((rightVar?.map (fun v => v.name)).getD object) ++ "_pairs"
        match leftVar?, rightVar? with
        | some leftVar, some rightVar =>
          let validPairs := leftVar.value.flatMap (fun leftValue =>
            let related :=
              getRelatedEntities api regex leftValue relationId minWeight maxWeight
            rightVar.value.filterMap (fun rightValue =>
              if related.contains rightValue then none
              else some (leftValue ++ "," ++ rightValue)))
          .ok [⟨resultVarName, validPairs⟩]
        | some leftVar, none =>
          let allRightValues := dedupFirst ((dedupFirst leftVar.value).flatMap
            (fun leftValue =>
              getRelatedEntities api regex leftValue relationId minWeight maxWeight))
          let validPairs := leftVar.value.flatMap (fun leftValue =>
            let related :=
              getRelatedEntities api regex leftValue relationId minWeight maxWeight
            allRightValues.filterMap (fun rightValue =>
              if related.contains rightValue then none
              else some (leftValue ++ "," ++ rightValue)))
          .ok [⟨resultVarName, validPairs⟩]
        | none, some rightVar =>
          let allLeftValues := dedupFirst ((dedupFirst rightVar.value).flatMap
            (fun rightValue =>
              fetchToNames api rightValue relationId minWeight maxWeight))
          let validPairs := allLeftValues.flatMap (fun leftValue =>
            rightVar.value.filterMap (fun rightValue =>
              let related :=
                fetchToNames api rightValue relationId minWeight maxWeight
              if related.contains leftValue then none
              else some (leftValue ++ "," ++ rightValue)))
          .ok [⟨resultVarName, validPairs⟩]
        | none, none =>
          .ok [⟨resultVarName, allPairsScan api regex relationId minWeight maxWeight⟩]
      else
        match leftVar?, rightVar? with
        | some leftVar, some rightVar =>
          .ok (processVariableToVariableRelation api regex subject leftVar.value
            object rightVar.value relationId minWeight maxWeight)
        | some leftVar, none =>
          let validPairs := (dedupFirst leftVar.value).flatMap (fun leftValue =>
            (getRelatedEntities api regex leftValue relationId minWeight maxWeight).map
              (fun rightValue => leftValue ++ "," ++ rightValue))
          .ok [⟨subject ++ "_" ++ object ++ "_pairs", validPairs⟩]
        | none, some rightVar =>
          let validPairs := (dedupFirst rightVar.value).flatMap (fun rightValue =>
            (fetchToNames api rightValue relationId minWeight maxWeight).map
              (fun leftValue => leftValue ++ "," ++ rightValue))
          .ok [⟨subject ++ "_" ++ object ++ "_pairs", validPairs⟩]
        | none, none =>
          .ok [⟨subject ++ "_" ++ object ++ "_pairs",
            allPairsScan api regex relationId minWeight maxWeight⟩]
    else
      .error "Invalid API URL  or case not implemented"

/-! ## Parser (createParser in parseQuery.ts) -/

/-- Current look-ahead over the remaining token list.  The source lexer keeps
returning EOF once exhausted; an empty list therefore reads as an EOF token
(whose position is never consulted by the parser). -/
def peekTok : List Token → Token
  | [] => ⟨.EOF, "", 0⟩
  | t :: _ => t

/-- Advance past the current token (`eat` after a successful kind check). -/
def restTok : List Token → List Token
  | [] => []
  | _ :: ts => ts

/-- `simpleQuery` of createParser: subject (variable or entity), relation
(negation read off a leading `!` in its text), object (variable or entity),
then an optional weight parameter and an optional grep token. -/
def parseSimpleQuery (ts : List Token) : Except String (SimpleQueryAst × List Token) :=
  let s := peekTok ts
  if s.type == .VARIABLE || s.type == .ENTITY then
    let ts1 := restTok ts
    let r := peekTok ts1
    if r.type == .RELATION then
      let negated := leadsWith r.value.data ['!']
      let ts2 := restTok ts1
      let o := peekTok ts2
      if o.type == .VARIABLE || o.type == .ENTITY then
        let ts3 := restTok ts2
        let w := peekTok ts3
        let wp := if w.type == .WEIGHT_PARAM then some w else none
        let ts4 := if w.type == .WEIGHT_PARAM then restTok ts3 else ts3
        let g := peekTok ts4
        let gp := if g.type == .GREP then some g else none
        let ts5 := if g.type == .GREP then restTok ts4 else ts4
        .ok (⟨s, r, o, wp, gp, negated⟩, ts5)
      else .error "Expected variable or entity as object"
    else .error "Expected relation"
  else .error "Expected variable or entity as subject"

/-- The `while (AND || OR)` loop of `expression`, folding left.  Each
iteration consumes at least the operator token, so fuel equal to the length
of the token list bounds the iteration count; the fuel-exhaustion branch
(mirroring loop exit) is unreachable. -/
def parseExpressionLoop : Nat → ASTNode → List Token → Except String (ASTNode × List Token)
  | 0, node, ts => .ok (node, ts)
  | fuel + 1, node, ts =>
    let t := peekTok ts
    if t.type == .AND then
      match parseSimpleQuery (restTok ts) with
      | .error e => .error e
      | .ok (q, ts') => parseExpressionLoop fuel (.compound node .AND (.simple q)) ts'
    else if t.type == .OR then
      match parseSimpleQuery (restTok ts) with
      | .error e => .error e
      | .ok (q, ts') => parseExpressionLoop fuel (.compound node .OR (.simple q)) ts'
    else .ok (node, ts)

/-- `expression` of createParser. -/
def parseExpression (ts : List Token) : Except String (ASTNode × List Token) :=
  match parseSimpleQuery ts with
  | .error e => .error e
  | .ok (q, ts') => parseExpressionLoop ts.length (.simple q) ts'

/-- `parse` of createParser: one expression, then the look-ahead must be EOF. -/
def parseAll (ts : List Token) : Except String ASTNode :=
  match parseExpression ts with
  | .error e => .error e
  | .ok (node, ts') =>
    if (peekTok ts').type == .EOF then .ok node
    else .error "Unexpected token after parsing expression"

/-- `parseQuery` of createQueryEngine: lexer then parser. -/
def parseQuery (s : String) : Except String ASTNode :=
  match tokenize s with
  | .error e => .error e
  | .ok toks => parseAll toks

/-- `astToString` of parseQuery.ts. -/
def astToString : ASTNode → String
  | .simple q => q.subject.value ++ " " ++ q.relation.value ++ " " ++ q.object.value
  | .compound l op r =>
    "(" ++ astToString l ++ " " ++ (match op with | .AND => "AND" | .OR => "OR") ++
      " " ++ astToString r ++ ")"

/-! ## Tuple reconstruction (generateTuples, evaluateQuery.ts lines 414–557) -/

/-- First pass of `generateTuples`: split the bindings into the pair-relation
map, the plain value-set map and the connectivity graph, in input order. -/
def firstPass (contents : VariableContents) :
    List (String × List (String × String)) × List (String × List String) ×
      List (String × List String) :=
  contents.foldl (fun acc v =>
    let pr := acc.1
    let vv := acc.2.1
    let rg := acc.2.2
    if containsSub v.name "_pairs" then
      let parts := splitOnStr ((splitOnStr v.name "_pairs").headD "") "_"
      let var1 := parts.getD 0 ""
      let var2 := parts.getD 1 ""
      let key := var1 ++ "_" ++ var2
      let pairs := v.value.map (fun s =>
        ((splitOnStr s ",").getD 0 "", (splitOnStr s ",").getD 1 ""))
      let rg1 := if rg.any (fun p => p.1 == var1) then rg else rg ++ [(var1, [])]
      let rg2 := rg1.map (fun p =>
        if p.1 == var1 then (p.1, insertNew p.2 var2) else p)
      (assocSet pr key pairs, vv, rg2)
    else (pr, assocSet vv v.name (dedupFirst v.value), rg)) ([], [], [])

/-- The `allVariables` set: both ends of every pair-relation key, in
insertion order. -/
def allVarsOf (pr : List (String × List (String × String))) : List String :=
  pr.foldl (fun acc kp =>
    let parts := splitOnStr kp.1 "_"
    insertNew (insertNew acc (parts.getD 0 "")) (parts.getD 1 "")) []

/-- `findConnections`: every variable reachable from the tail of the current
path through a forward edge, then every variable with a reverse edge to it. -/
def findConnections (allVariables : List String)
    (rg : List (String × List String)) (path : List String) : List String :=
  match path.getLast? with
  | none => allVariables
  | some lastVar =>
    (match assocGet rg lastVar with
     | some conns => conns.filter (fun cv => !path.contains cv)
     | none => []) ++
    rg.filterMap (fun p =>
      if !path.contains p.1 && p.2.contains lastVar then some p.1 else none)

/-- `buildChains`: depth-first enumeration of complete traversal orders.
Each recursive call extends the path by one fresh variable, so fuel equal to
the number of variables bounds the depth; the fuel-exhaustion branch is
unreachable. -/
def buildChains (allCount : Nat) (allVariables : List String)
    (rg : List (String × List String)) :
    Nat → List String → List (List String) → List (List String)
  | fuel, path, acc =>
    if path.length == allCount then acc ++ [path]
    else
      match fuel with
      | 0 => acc
      | fuel' + 1 =>
        (findConnections allVariables rg path).foldl (fun a nv =>
          if path.contains nv then a
          else buildChains allCount allVariables rg fuel' (path ++ [nv]) a) acc

/-- Candidate values for one chain variable: its own explicit value set when
bound, otherwise the union of the matching side of every pair-relation
touching it. -/
def potentialValues (pr : List (String × List (String × String)))
    (vv : List (String × List String)) (currentVar : String) : List String :=
  match assocGet vv currentVar with
  | some vs => vs
  | none =>
    pr.foldl (fun acc kp =>
      let parts := splitOnStr kp.1 "_"
      if parts.getD 0 "" == currentVar then
        kp.2.foldl (fun a p => insertNew a p.1) acc
      else if parts.getD 1 "" == currentVar then
        kp.2.foldl (fun a p => insertNew a p.2) acc
      else acc) []

/-- Acceptance test of `buildTuples`: for every variable already assigned,
the forward pair-relation table (or failing that the reverse one) must
contain the exact assigned pair. -/
def checkValid (pr : List (String × List (String × String)))
    (assigned : List (String × String)) (currentVar value : String) : Bool :=
  assigned.all (fun pv =>
    let forwardKey := pv.1 ++ "_" ++ currentVar
    let backwardKey := currentVar ++ "_" ++ pv.1
    match assocGet pr forwardKey with
    | some pairs => pairs.any (fun fp => fp.1 == pv.2 && fp.2 == value)
    | none =>
      match assocGet pr backwardKey with
      | some pairs => pairs.any (fun fp => fp.1 == value && fp.2 == pv.2)
      | none => true)

/-- The backtracking enumeration of `buildTuples`; a finished assignment is
one labelled tuple, in chain order. -/
def buildTuplesAux (pr : List (String × List (String × String)))
    (vv : List (String × List String)) :
    List String → List (String × String) → List (List (String × String))
  | [], assigned => [assigned]
  | currentVar :: rest, assigned =>
    (potentialValues pr vv currentVar).flatMap (fun value =>
      if checkValid pr assigned currentVar value then
        buildTuplesAux pr vv rest (assigned ++ [(currentVar, value)])
      else [])

/-- `generateTuples`: labelled rows (variable-name/value pairs in chain
order) consistent with every pair-relation constraint and plain binding. -/
def generateTuples (contents : VariableContents) : List (List (String × String)) :=
  match firstPass contents with
  | (pairRelations, variableValues, relationGraph) =>
    let allVariables := allVarsOf pairRelations
    let possibleChains :=
      buildChains allVariables.length allVariables relationGraph
        allVariables.length [] []
    let chain := possibleChains.headD allVariables
    buildTuplesAux pairRelations variableValues chain []

/-! ## Combinator and recursive evaluation (evaluateQuery, lines 560–667) -/

/-- The AND merge loop (lines 589–609): shared names keep a non-empty
intersection and are silently dropped on an empty one; one-sided names pass
through. -/
def combineAND (lvars rvars : VariableContents) : VariableContents :=
  (lvars.filterMap (fun leftVar =>
    match rvars.find? (fun v => v.name == leftVar.name) with
    | some rightVar =>
      let intersection := leftVar.value.filter (fun value => rightVar.value.contains value)
      if intersection.length > 0 then some ⟨leftVar.name, intersection⟩ else none
    | none => some leftVar)) ++
  rvars.filter (fun rightVar => !lvars.any (fun v => v.name == rightVar.name))

/-- The OR merge loop (lines 622–630): start from the left bindings, union
value sets on shared names (first-occurrence order), append new names. -/
def combineOR (lvars rvars : VariableContents) : VariableContents :=
  rvars.foldl (fun acc rightVar =>
    match acc.findIdx? (fun v => v.name == rightVar.name) with
    | some i =>
      match acc[i]? with
      | some cur => acc.set i ⟨cur.name, dedupFirst (cur.value ++ rightVar.value)⟩
      | none => acc
    | none => acc ++ [rightVar]) lvars

/-- Projection step (lines 637–663): for every pair-relation binding, the
plain bindings of its two variables are overwritten with the values observed
in the pair tuples. -/
def projectPairs (combinedVariables : VariableContents) : VariableContents :=
  (combinedVariables.filter (fun v => containsSub v.name "_pairs")).foldl
    (fun acc pairVar =>
      let parts := splitOnStr ((splitOnStr pairVar.name "_pairs").headD "") "_"
      let var1 := parts.getD 0 ""
      let var2 := parts.getD 1 ""
      let var1Values := dedupFirst (pairVar.value.map (fun p => (splitOnStr p ",").getD 0 ""))
      let var2Values := dedupFirst (pairVar.value.map (fun p => (splitOnStr p ",").getD 1 ""))
      let acc1 := match acc.findIdx? (fun v => v.name == var1) with
        | some i => acc.set i ⟨var1, var1Values⟩
        | none => acc
      match acc1.findIdx? (fun v => v.name == var2) with
      | some i => acc1.set i ⟨var2, var2Values⟩
      | none => acc1) combinedVariables

/-- Shared tail of the compound branch (lines 633–665): tuple reconstruction,
rows joined with commas, then the pair projection. -/
def finishCompound (combinedVariables : VariableContents) : EvalResult :=
  let tuples := generateTuples combinedVariables
  ⟨tuples.map (fun t => joinComma (t.map (fun p => p.2))),
   projectPairs combinedVariables⟩

/-- The combination performed at a `CompoundQuery` node once both sub-results
are available (evaluateQuery lines 582–665). -/
def evalCompoundStep (op : Op) (leftResult rightResult : EvalResult) : EvalResult :=
  match op with
  | .AND =>
    if leftResult.vars.length == 0 || rightResult.vars.length == 0 then ⟨[], []⟩
    else
      let combinedVariables := combineAND leftResult.vars rightResult.vars
      if combinedVariables.any (fun v => v.value.length == 0) then ⟨[], []⟩
      else finishCompound combinedVariables
  | .OR =>
    if leftResult.vars.length == 0 then rightResult
    else if rightResult.vars.length == 0 then leftResult
    else finishCompound (combineOR leftResult.vars rightResult.vars)

/-- Merge of freshly produced bindings into the accumulated ones at a
`SimpleQuery` node (lines 567–575): replace an existing name, append a new
one. -/
def mergeVars (existing newVars : VariableContents) : VariableContents :=
  newVars.foldl (fun acc newVar =>
    match acc.findIdx? (fun v => v.name == newVar.name) with
    | some i => acc.set i newVar
    | none => acc ++ [newVar]) existing

/-- `evaluateQuery`: leaves resolve through `evaluateSimpleQuery` (result is
the first produced value set), interior nodes evaluate left, then right with
the left's accumulated bindings, then combine. -/
def evaluateQuery (api : Api) (rx : String → String → Bool)
    (catalog : List RelationEntry) :
    ASTNode → VariableContents → Except String EvalResult
  | .simple q, existingVariables =>
    match evaluateSimpleQuery api rx catalog q existingVariables with
    | .error e => .error e
    | .ok newVars =>
      .ok ⟨((newVars.head?).map (fun v => v.value)).getD [],
        mergeVars existingVariables newVars⟩
  | .compound l op r, existingVariables =>
    match evaluateQuery api rx catalog l existingVariables with
    | .error e => .error e
    | .ok leftResult =>
      match evaluateQuery api rx catalog r leftResult.vars with
      | .error e => .error e
      | .ok rightResult => .ok (evalCompoundStep op leftResult rightResult)

/-! ## HTTP route handler (src/app/api/process-query/route.ts) -/

/-- JSON payload of `GET /api/process-query`.  The error shape hard-codes
`variables: []` and `result: {}`; the empty object is modelled as the empty
list in the `result` field of `err`. -/
inductive RoutePayload
  | ok (ast : String) (contents : VariableContents) (result : List String) (query : String)
  | err (msg : String) (contents : VariableContents) (result : List String) (query : String)
deriving DecidableEq, Repr

/-- The route's `GET` handler: parse then evaluate inside one `try`; any
thrown error becomes `{ error, variables: [], result: {}, query }`. -/
def processQueryGET (api : Api) (rx : String → String → Bool)
    (catalog : List RelationEntry) (query : String) : RoutePayload :=
  match parseQuery query with
  | .error e => .err e [] [] query
  | .ok parsedQuery =>
    match evaluateQuery api rx catalog parsedQuery [] with
    | .error e => .err e [] [] query
    | .ok r => .ok (astToString parsedQuery) r.vars r.result query

/-! # Claims -/

/-- C1.  The weight band as the clause resolver actually derives it: with no
token the band is ("30", "999999"); `">=500"` yields min `"=500"` (the `=` is
left behind because `replace(/[<>=]/, "")` lacks the global flag and removes
only the leading `>`), not 500 as specified; `"<=100"` symmetrically yields
max `"=100"`; only the `"=10"` token behaves as specified, with both bounds
`"10"`.  This contradicts the claimed bands min=500 / max=100. -/
theorem weight_band_token_evaluation :
    parseWeights none = ("30", "999999") ∧
    parseWeights (some ">=500") = ("=500", "999999") ∧
    parseWeights (some "<=100") = ("30", "=100") ∧
    parseWeights (some "=10") = ("10", "10") :=
  ⟨rfl, rfl, rfl, rfl⟩

/-- C3.  Tuple reconstruction on the pair-relation
`x_y_pairs = [("lion","mane"),("lion","roar")]` with the plain binding
`y = {"mane"}` emits exactly the row `{x: "lion", y: "mane"}`; without the
plain binding on `y` both pairings survive, showing that the `"roar"` row is
rejected precisely because `"roar"` is not in `y`'s bound set. -/
theorem generateTuples_chain_filtering :
    generateTuples [⟨"x_y_pairs", ["lion,mane", "lion,roar"]⟩, ⟨"y", ["mane"]⟩] =
      [[("x", "lion"), ("y", "mane")]] ∧
    generateTuples [⟨"x_y_pairs", ["lion,mane", "lion,roar"]⟩] =
      [[("x", "lion"), ("y", "mane")], [("x", "lion"), ("y", "roar")]] :=
  ⟨rfl, rfl⟩

/-- C2 counterexample.  Combining under AND with left bindings
`x={"a"}, y={"c"}` and right bindings `x={"b"}`: the shared variable `x` has
an empty intersection, yet the combined result is NOT empty — `x` is silently
dropped, the one-sided `y` survives, and one (degenerate) result row is
produced.  This refutes the claim that any empty shared intersection empties
the whole combined result. -/
theorem and_empty_intersection_cex :
    evalCompoundStep .AND ⟨[], [⟨"x", ["a"]⟩, ⟨"y", ["c"]⟩]⟩ ⟨[], [⟨"x", ["b"]⟩]⟩ =
      ⟨[""], [⟨"y", ["c"]⟩]⟩ ∧
    evalCompoundStep .AND ⟨[], [⟨"x", ["a"]⟩, ⟨"y", ["c"]⟩]⟩ ⟨[], [⟨"x", ["b"]⟩]⟩ ≠
      ⟨[], []⟩ :=
  ⟨rfl, by decide⟩

/-- C2 amended.  Under AND: (i) a side with no bindings at all empties the
combined result; (ii) a variable present on both sides whose intersection is
empty is dropped from the combined bindings rather than emptying the whole
result; (iii) concretely, the dropped variable leaves one-sided variables
untouched; (iv) the whole result collapses to the empty pair only when some
variable surviving in the combined list has an empty value set. -/
theorem and_combination_amended :
    (∀ (lres rres : List String) (rv : VariableContents),
        evalCompoundStep .AND ⟨lres, []⟩ ⟨rres, rv⟩ = ⟨[], []⟩) ∧
    (∀ (lres rres : List String) (lv : VariableContents),
        evalCompoundStep .AND ⟨lres, lv⟩ ⟨rres, []⟩ = ⟨[], []⟩) ∧
    (∀ (n : String) (lvals rvals : List String),
        lvals.filter (fun value => rvals.contains value) = [] →
        combineAND [⟨n, lvals⟩] [⟨n, rvals⟩] = []) ∧
    (evalCompoundStep .AND ⟨[], [⟨"x", ["a"]⟩, ⟨"y", ["c"]⟩]⟩
        ⟨[], [⟨"x", ["b"]⟩]⟩ = ⟨[""], [⟨"y", ["c"]⟩]⟩) ∧
    (evalCompoundStep .AND ⟨[], [⟨"y", []⟩]⟩ ⟨[], [⟨"x", ["b"]⟩]⟩ = ⟨[], []⟩) := by
  refine ⟨?_, ?_, ?_, rfl, rfl⟩
  · intro lres rres rv
    simp [evalCompoundStep]
  · intro lres rres lv
    cases lv <;> simp [evalCompoundStep]
  · intro n lvals rvals h
    simp [combineAND, h]
    intro a ha
    have := List.filter_eq_nil_iff.mp h a ha
    simpa using this

/-- C2 amended, witness: the drop rule of `and_combination_amended` applied
to the concrete bindings `x={"a"}` versus `x={"b"}`. -/
theorem and_combination_amended_witness :
    combineAND [⟨"x", ["a"]⟩] [⟨"x", ["b"]⟩] = [] :=
  and_combination_amended.2.2.1 "x" ["a"] ["b"] (by decide)

/-- C6.  Under OR: a left side with no bindings returns the right result
object unmodified; a right side with no bindings (the left having some)
returns the left result unmodified; and with bindings on both sides shared
names take the set union of their value sets while one-sided names pass
through, shown on concrete bindings. -/
theorem or_combination :
    (∀ (lres : List String) (r : EvalResult),
        evalCompoundStep .OR ⟨lres, []⟩ r = r) ∧
    (∀ (lres rres : List String) (lv : VariableContents), lv ≠ [] →
        evalCompoundStep .OR ⟨lres, lv⟩ ⟨rres, []⟩ = ⟨lres, lv⟩) ∧
    (evalCompoundStep .OR ⟨[], [⟨"x", ["a", "b"]⟩, ⟨"z", ["c"]⟩]⟩
        ⟨[], [⟨"x", ["b", "d"]⟩, ⟨"w", ["e"]⟩]⟩ =
      ⟨[""], [⟨"x", ["a", "b", "d"]⟩, ⟨"z", ["c"]⟩, ⟨"w", ["e"]⟩]⟩) := by
  refine ⟨?_, ?_, rfl⟩
  · intro lres r
    simp [evalCompoundStep]
  · intro lres rres lv h
    cases lv with
    | nil => exact absurd rfl h
    | cons a l => simp [evalCompoundStep]

/-- C6 witness: the right-identity part of `or_combination` at concrete
bindings. -/
theorem or_combination_witness :
    evalCompoundStep .OR ⟨["row"], [⟨"x", ["a"]⟩]⟩ ⟨["q"], []⟩ =
      ⟨["row"], [⟨"x", ["a"]⟩]⟩ :=
  or_combination.2.1 ["row"] ["q"] [⟨"x", ["a"]⟩] (by decide)

/-- C7 counterexample.  In the input `"a @"` the character `'@'` sits at
position 2 and matches no classification rule; tokenization fails, but the
error message is exactly `"Unexpected character: @"` — it names the character
and contains no rendering of the position (no digit `'2'` occurs in it),
refuting the claim that the message names the position. -/
theorem lexer_error_position_cex :
    tokenize "a @" = .error "Unexpected character: @" ∧
    containsSub "Unexpected character: @" "2" = false ∧
    containsSub "Unexpected character: @" "@" = true :=
  ⟨rfl, rfl, rfl⟩

/-- C7 amended.  Whenever the current character matches none of the lexer's
classification rules (not whitespace, not `$`, not the `r_`/`!r_`
look-aheads, not `<`/`>`/`=`, not `/`, not the AND/OR literals, not an ASCII
letter), `getNextToken` fails with a lexical error naming the offending
character; the message does not include the position (the right-hand side is
independent of `pos`). -/
theorem lexer_unrecognized_char (c : Char) (rest : List Char) (pos : Nat)
    (h1 : isWsChar c = false)
    (h2 : (c == '$') = false)
    (h3 : (c == 'r' && rest.head? == some '_') = false)
    (h4 : (c == '!' && rest.take 2 == ['r', '_']) = false)
    (h5 : (c == '<' || c == '>' || c == '=') = false)
    (h6 : (c == '/') = false)
    (h7 : (c == 'A' && (c :: rest).take 3 == ['A', 'N', 'D']) = false)
    (h8 : (c == 'O' && (c :: rest).take 2 == ['O', 'R']) = false)
    (h9 : isAsciiLetter c = false) :
    getNextToken (c :: rest) pos =
      .error ("Unexpected character: " ++ String.mk [c]) := by
  simp at h7 h8
  simp [getNextToken, h1, h2, h3, h4, h5, h6, h9]
  rw [if_neg (fun hand => h7 hand.1 hand.2), if_neg (fun hor => h8 hor.1 hor.2)]

/-- C7 amended, witness: `lexer_unrecognized_char` at `'@'` (position 5,
arbitrary), yielding the position-free message. -/
theorem lexer_unrecognized_char_witness :
    getNextToken [Char.ofNat 64] 5 = .error "Unexpected character: @" := by
  have h := lexer_unrecognized_char (Char.ofNat 64) [] 5 (by decide) (by decide)
    (by decide) (by decide) (by decide) (by decide) (by decide) (by decide)
    (by decide)
  exact h

/-- C4.  A negated Variable→Entity clause (`$x !r_isa mammal`) rebinds the
variable to its prior values minus the names (of type-1 nodes) the lookup
reports: the general set-difference shape, for any stub answer at the
`to/mammal` URL and any prior binding of `$x`. -/
theorem negated_var_entity_set_difference (api : Api)
    (rx : String → String → Bool) (catalog : List RelationEntry) (id : Int)
    (prior : List String) (ns : List Node) (es : List Edge)
    (hc : findRelId catalog "r_isa" = some id)
    (ha : api (urlTo "mammal" id "30" "999999") = ⟨ns, es⟩) :
    evaluateSimpleQuery api rx catalog
      ⟨⟨.VARIABLE, "$x", 0⟩, ⟨.RELATION, "!r_isa", 3⟩, ⟨.ENTITY, "mammal", 10⟩,
        none, none, true⟩
      [⟨"$x", prior⟩] =
    .ok [⟨"$x", prior.filter (fun value =>
      !(((ns.filter (fun n => n.type == 1)).map (fun n => n.name)).contains value))⟩] := by
  have hrb : removeBang "!r_isa" = "r_isa" := rfl
  have h30 : toString MIN_WEIGHT = "30" := rfl
  have h99 : toString MAX_WEIGHT = "999999" := rfl
  simp [evaluateSimpleQuery, hrb, hc, parseWeights, h30, h99, ha, applyRegex]

/-- C4 witness: the deterministic stub used to instantiate
`negated_var_entity_set_difference` — the `to/mammal` lookup answers
`{"lion", "cat"}` (type-1 nodes), every other URL answers nothing. -/
def stubApiC4 : Api := fun url =>
  if url == urlTo "mammal" 6 "30" "999999" then
    ⟨[⟨17, "lion", 1, 50⟩, ⟨18, "cat", 1, 50⟩], []⟩
  else ⟨[], []⟩

/-- C4 witness: with `$x` pre-bound to `{"lion","rose","cat"}` and the stub
reporting `{"lion","cat"}`, the clause `$x !r_isa mammal` leaves
`$x = {"rose"}`. -/
theorem negated_var_entity_set_difference_witness :
    evaluateSimpleQuery stubApiC4 (fun _ _ => false) [⟨6, "r_isa"⟩]
      ⟨⟨.VARIABLE, "$x", 0⟩, ⟨.RELATION, "!r_isa", 3⟩, ⟨.ENTITY, "mammal", 10⟩,
        none, none, true⟩
      [⟨"$x", ["lion", "rose", "cat"]⟩] =
    .ok [⟨"$x", ["rose"]⟩] := by
  have h := negated_var_entity_set_difference stubApiC4 (fun _ _ => false)
    [⟨6, "r_isa"⟩] 6 ["lion", "rose", "cat"]
    [⟨17, "lion", 1, 50⟩, ⟨18, "cat", 1, 50⟩] [] (by decide) (by decide)
  simpa using h

/-- Filtering the empty candidate list is empty for any optional regex. -/
theorem applyRegex_nil (rx? : Option (String → Bool)) : applyRegex rx? [] = [] := by
  cases rx? <;> simp [applyRegex]

/-- C10.  A negated clause whose variable carries no prior binding resolves
that variable to the empty list (the complement of the fetched set against an
empty universe) rather than raising an error — in both the Variable→Entity
and the Entity→Variable directions, for every stub, catalog entry, weight
parameter and grep token. -/
theorem negated_unbound_variable_empty :
    (∀ (api : Api) (rx : String → String → Bool) (catalog : List RelationEntry)
       (sv rv ov : String) (p1 p2 p3 : Nat) (wp gp : Option Token)
       (existing : VariableContents) (id : Int),
       findRelId catalog (removeBang rv) = some id →
       existing.find? (fun v => v.name == sv) = none →
       evaluateSimpleQuery api rx catalog
         ⟨⟨.VARIABLE, sv, p1⟩, ⟨.RELATION, rv, p2⟩, ⟨.ENTITY, ov, p3⟩, wp, gp, true⟩
         existing = .ok [⟨sv, []⟩]) ∧
    (∀ (api : Api) (rx : String → String → Bool) (catalog : List RelationEntry)
       (sv rv ov : String) (p1 p2 p3 : Nat) (wp gp : Option Token)
       (existing : VariableContents) (id : Int),
       findRelId catalog (removeBang rv) = some id →
       existing.find? (fun v => v.name == ov) = none →
       evaluateSimpleQuery api rx catalog
         ⟨⟨.ENTITY, sv, p1⟩, ⟨.RELATION, rv, p2⟩, ⟨.VARIABLE, ov, p3⟩, wp, gp, true⟩
         existing = .ok [⟨ov, []⟩]) := by
  constructor
  · intro api rx catalog sv rv ov p1 p2 p3 wp gp existing id hc hx
    simp [evaluateSimpleQuery, hc, hx, applyRegex_nil]
  · intro api rx catalog sv rv ov p1 p2 p3 wp gp existing id hc hx
    simp [evaluateSimpleQuery, hc, hx, applyRegex_nil]

/-- C10 witness: both directions of `negated_unbound_variable_empty` at a
concrete unbound variable, a one-row catalog and the empty stub. -/
theorem negated_unbound_variable_empty_witness :
    evaluateSimpleQuery (fun _ => ⟨[], []⟩) (fun _ _ => false) [⟨6, "r_isa"⟩]
      ⟨⟨.VARIABLE, "$x", 0⟩, ⟨.RELATION, "!r_isa", 3⟩, ⟨.ENTITY, "mammal", 10⟩,
        none, none, true⟩ [] = .ok [⟨"$x", []⟩] ∧
    evaluateSimpleQuery (fun _ => ⟨[], []⟩) (fun _ _ => false) [⟨6, "r_isa"⟩]
      ⟨⟨.ENTITY, "mammal", 0⟩, ⟨.RELATION, "!r_isa", 7⟩, ⟨.VARIABLE, "$x", 14⟩,
        none, none, true⟩ [] = .ok [⟨"$x", []⟩] :=
  ⟨negated_unbound_variable_empty.1 (fun _ => ⟨[], []⟩) (fun _ _ => false)
      [⟨6, "r_isa"⟩] "$x" "!r_isa" "mammal" 0 3 10 none none [] 6 (by decide) rfl,
    negated_unbound_variable_empty.2 (fun _ => ⟨[], []⟩) (fun _ _ => false)
      [⟨6, "r_isa"⟩] "mammal" "!r_isa" "$x" 0 7 14 none none [] 6 (by decide) rfl⟩

/-- C9.  A `SimpleQuery` whose subject and object are both Entity tokens
matches none of the three dispatch cases of `evaluateSimpleQuery` and always
fails with the `Invalid API URL  or case not implemented` error (with the
empty `apiUrl` interpolated), for any stub, bindings and catalog that knows
the relation code — even though the grammar accepts ENTITY RELATION ENTITY,
as the accompanying concrete parse shows. -/
theorem entity_entity_not_implemented :
    (∀ (api : Api) (rx : String → String → Bool) (catalog : List RelationEntry)
       (q : SimpleQueryAst) (existing : VariableContents) (id : Int),
       q.subject.type = .ENTITY → q.object.type = .ENTITY →
       findRelId catalog (removeBang q.relation.value) = some id →
       evaluateSimpleQuery api rx catalog q existing =
         .error "Invalid API URL  or case not implemented") ∧
    parseQuery "lion r_isa animal" =
      .ok (.simple ⟨⟨.ENTITY, "lion", 0⟩, ⟨.RELATION, "r_isa", 5⟩,
        ⟨.ENTITY, "animal", 11⟩, none, none, false⟩) := by
  refine ⟨?_, rfl⟩
  intro api rx catalog q existing id hs ho hc
  simp [evaluateSimpleQuery, hc, hs, ho]

/-- C9 witness: `entity_entity_not_implemented` at the parsed clause
`lion r_isa animal`, a one-row catalog and the empty stub. -/
theorem entity_entity_not_implemented_witness :
    evaluateSimpleQuery (fun _ => ⟨[], []⟩) (fun _ _ => false) [⟨6, "r_isa"⟩]
      ⟨⟨.ENTITY, "lion", 0⟩, ⟨.RELATION, "r_isa", 5⟩, ⟨.ENTITY, "animal", 11⟩,
        none, none, false⟩ [] =
      .error "Invalid API URL  or case not implemented" :=
  entity_entity_not_implemented.1 (fun _ => ⟨[], []⟩) (fun _ _ => false)
    [⟨6, "r_isa"⟩]
    ⟨⟨.ENTITY, "lion", 0⟩, ⟨.RELATION, "r_isa", 5⟩, ⟨.ENTITY, "animal", 11⟩,
      none, none, false⟩ [] 6 rfl rfl (by decide)

/-- C8.  Evaluating `lion r_unknown animal` against any catalog without an
entry for `r_unknown` fails with the error naming the code, and the route
payload carries that message together with empty variables and the empty
result object. -/
theorem unknown_relation_route_error (api : Api) (rx : String → String → Bool)
    (catalog : List RelationEntry)
    (h : findRelId catalog "r_unknown" = none) :
    processQueryGET api rx catalog "lion r_unknown animal" =
      .err "Relation \"r_unknown\" not recognized" [] [] "lion r_unknown animal" := by
  have hp : parseQuery "lion r_unknown animal" =
      .ok (.simple ⟨⟨.ENTITY, "lion", 0⟩, ⟨.RELATION, "r_unknown", 5⟩,
        ⟨.ENTITY, "animal", 15⟩, none, none, false⟩) := rfl
  have hrb : removeBang "r_unknown" = "r_unknown" := rfl
  simp [processQueryGET, hp, evaluateQuery, evaluateSimpleQuery, hrb, h]

/-- C8 witness: `unknown_relation_route_error` with a one-row catalog that
lacks `r_unknown` and the empty stub. -/
theorem unknown_relation_route_error_witness :
    processQueryGET (fun _ => ⟨[], []⟩) (fun _ _ => false) [⟨6, "r_isa"⟩]
      "lion r_unknown animal" =
      .err "Relation \"r_unknown\" not recognized" [] [] "lion r_unknown animal" :=
  unknown_relation_route_error (fun _ => ⟨[], []⟩) (fun _ _ => false)
    [⟨6, "r_isa"⟩] (by decide)

/-- Operator selected by the `expression` loop for an AND/OR look-ahead
token (the `if AND ... else if OR` dispatch). -/
def opOfTok (t : Token) : Op := if t.type == .AND then .AND else .OR

/-- Look-ahead over a non-empty token list is its head. -/
theorem peekTok_cons (t : Token) (ts : List Token) : peekTok (t :: ts) = t := rfl

/-- Advancing over a non-empty token list drops its head. -/
theorem restTok_cons (t : Token) (ts : List Token) : restTok (t :: ts) = ts := rfl

/-- One clause of the grammar: `simpleQuery` on a subject/relation/object
token triple not followed by a weight or grep token succeeds without
consuming anything further, reading negation off a leading `!` in the
relation text. -/
theorem parseSimpleQuery_eq (s r o : Token) (rest : List Token)
    (hs : s.type = .VARIABLE ∨ s.type = .ENTITY) (hr : r.type = .RELATION)
    (ho : o.type = .VARIABLE ∨ o.type = .ENTITY)
    (hw : (peekTok rest).type ≠ .WEIGHT_PARAM)
    (hg : (peekTok rest).type ≠ .GREP) :
    parseSimpleQuery (s :: r :: o :: rest) =
      .ok (⟨s, r, o, none, none, leadsWith r.value.data ['!']⟩, rest) := by
  have hw' : ((peekTok rest).type == TokType.WEIGHT_PARAM) = false := by
    simpa using hw
  have hg' : ((peekTok rest).type == TokType.GREP) = false := by
    simpa using hg
  rcases hs with hs | hs <;> rcases ho with ho | ho <;>
    simp [parseSimpleQuery, peekTok_cons, restTok_cons, hs, hr, ho, hw', hg']

/-- C5.  The parser folds AND/OR chains strictly left-associatively with no
precedence: for any three clauses and any two operators drawn from
{AND, OR}, the token stream `a OP1 b OP2 c EOF` parses to
`CompoundQuery(CompoundQuery(a, OP1, b), OP2, c)`. -/
theorem parser_left_fold
    (s1 r1 o1 s2 r2 o2 s3 r3 o3 t1 t2 : Token) (pe : Nat)
    (hs1 : s1.type = .VARIABLE ∨ s1.type = .ENTITY) (hr1 : r1.type = .RELATION)
    (ho1 : o1.type = .VARIABLE ∨ o1.type = .ENTITY)
    (hs2 : s2.type = .VARIABLE ∨ s2.type = .ENTITY) (hr2 : r2.type = .RELATION)
    (ho2 : o2.type = .VARIABLE ∨ o2.type = .ENTITY)
    (hs3 : s3.type = .VARIABLE ∨ s3.type = .ENTITY) (hr3 : r3.type = .RELATION)
    (ho3 : o3.type = .VARIABLE ∨ o3.type = .ENTITY)
    (ht1 : t1.type = .AND ∨ t1.type = .OR)
    (ht2 : t2.type = .AND ∨ t2.type = .OR) :
    parseAll [s1, r1, o1, t1, s2, r2, o2, t2, s3, r3, o3, ⟨.EOF, "", pe⟩] =
      .ok (.compound
        (.compound
          (.simple ⟨s1, r1, o1, none, none, leadsWith r1.value.data ['!']⟩)
          (opOfTok t1)
          (.simple ⟨s2, r2, o2, none, none, leadsWith r2.value.data ['!']⟩))
        (opOfTok t2)
        (.simple ⟨s3, r3, o3, none, none, leadsWith r3.value.data ['!']⟩)) := by
  have e1 := parseSimpleQuery_eq s1 r1 o1
    [t1, s2, r2, o2, t2, s3, r3, o3, ⟨.EOF, "", pe⟩] hs1 hr1 ho1
    (by rcases ht1 with h | h <;> simp [peekTok, h])
    (by rcases ht1 with h | h <;> simp [peekTok, h])
  have e2 := parseSimpleQuery_eq s2 r2 o2
    [t2, s3, r3, o3, ⟨.EOF, "", pe⟩] hs2 hr2 ho2
    (by rcases ht2 with h | h <;> simp [peekTok, h])
    (by rcases ht2 with h | h <;> simp [peekTok, h])
  have e3 := parseSimpleQuery_eq s3 r3 o3 [⟨.EOF, "", pe⟩] hs3 hr3 ho3
    (by simp [peekTok]) (by simp [peekTok])
  rcases ht1 with h1 | h1 <;> rcases ht2 with h2 | h2 <;>
    simp [parseAll, parseExpression, parseExpressionLoop, peekTok_cons,
      restTok_cons, opOfTok, e1, e2, e3, h1, h2]

/-- C5 witness: the full pipeline on the concrete input of the spec,
`"a r_x $y AND b r_z $w OR c r_q $v"`, parses to
`((a r_x $y AND b r_z $w) OR c r_q $v)`. -/
theorem parser_left_fold_witness :
    parseQuery "a r_x $y AND b r_z $w OR c r_q $v" =
      .ok (.compound
        (.compound
          (.simple ⟨⟨.ENTITY, "a", 0⟩, ⟨.RELATION, "r_x", 2⟩,
            ⟨.VARIABLE, "$y", 6⟩, none, none, false⟩)
          .AND
          (.simple ⟨⟨.ENTITY, "b", 13⟩, ⟨.RELATION, "r_z", 15⟩,
            ⟨.VARIABLE, "$w", 19⟩, none, none, false⟩))
        .OR
        (.simple ⟨⟨.ENTITY, "c", 25⟩, ⟨.RELATION, "r_q", 27⟩,
          ⟨.VARIABLE, "$v", 31⟩, none, none, false⟩)) := by
  have h := parser_left_fold
    ⟨.ENTITY, "a", 0⟩ ⟨.RELATION, "r_x", 2⟩ ⟨.VARIABLE, "$y", 6⟩
    ⟨.ENTITY, "b", 13⟩ ⟨.RELATION, "r_z", 15⟩ ⟨.VARIABLE, "$w", 19⟩
    ⟨.ENTITY, "c", 25⟩ ⟨.RELATION, "r_q", 27⟩ ⟨.VARIABLE, "$v", 31⟩
    ⟨.AND, "AND", 9⟩ ⟨.OR, "OR", 22⟩ 33
    (Or.inr rfl) rfl (Or.inl rfl) (Or.inr rfl) rfl (Or.inl rfl)
    (Or.inr rfl) rfl (Or.inl rfl) (Or.inl rfl) (Or.inr rfl)
  have ht : tokenize "a r_x $y AND b r_z $w OR c r_q $v" =
      .ok [⟨.ENTITY, "a", 0⟩, ⟨.RELATION, "r_x", 2⟩, ⟨.VARIABLE, "$y", 6⟩,
        ⟨.AND, "AND", 9⟩, ⟨.ENTITY, "b", 13⟩, ⟨.RELATION, "r_z", 15⟩,
        ⟨.VARIABLE, "$w", 19⟩, ⟨.OR, "OR", 22⟩, ⟨.ENTITY, "c", 25⟩,
        ⟨.RELATION, "r_q", 27⟩, ⟨.VARIABLE, "$v", 31⟩, ⟨.EOF, "", 33⟩] := rfl
  rw [parseQuery, ht]
  simpa using h

end QueryJDM
